import Mathlib

/-
Verification of the pi-display terminal clock/weather program against its
natural-language specification.  The program (src/main.rs) is shallowly
embedded below: pure Rust functions become Lean functions, the stateful
pieces of the render loop become explicit state-transition functions, f64
temperature values are modelled as rationals, i64 timestamps as Int with
Rust's truncating division (Int.tdiv / Int.tmod), and Rust panics (array
index out of bounds) are modelled explicitly as an error value.
-/

namespace PiDisplay

/-- Embedding of `weather_code_to_condition` (main.rs lines 54-65).  The Rust
match arms are half-open/closed `u8` ranges tried in order; the argument type
`u8` is modelled as `Nat` (theorems restrict to codes below 256). -/
def weather_code_to_condition (code : Nat) : String :=
  if code = 0 then "Clear"
  else if 1 ≤ code ∧ code ≤ 3 then "Cloudy"
  else if 45 ≤ code ∧ code ≤ 48 then "Fog"
  else if 51 ≤ code ∧ code ≤ 67 then "Rain"
  else if 71 ≤ code ∧ code ≤ 77 then "Snow"
  else if 80 ≤ code ∧ code ≤ 82 then "Showers"
  else if 95 ≤ code ∧ code ≤ 99 then "Storm"
  else "Unknown"

/-- Gregorian leap-year rule, used by the model of chrono's calendar. -/
def isLeap (y : Nat) : Bool := (y % 4 == 0 && y % 100 != 0) || y % 400 == 0

/-- Number of days in a month of the proleptic Gregorian calendar. -/
def daysInMonth (y m : Nat) : Nat :=
  if m = 2 then (if isLeap y then 29 else 28)
  else if m = 4 ∨ m = 6 ∨ m = 9 ∨ m = 11 then 30
  else 31

/-- Numeric value of a decimal digit character. -/
def digitVal (c : Char) : Nat := c.toNat - '0'.toNat

/-- Model of `chrono::NaiveDate::parse_from_str(date, "%Y-%m-%d")` (the external
library call at main.rs line 91): the string must be exactly four digits, a
dash, two digits, a dash and two digits, and denote a valid calendar date;
otherwise parsing fails. -/
def parseYMD (s : String) : Option (Nat × Nat × Nat) :=
  match s.toList with
  | [y1, y2, y3, y4, c1, m1, m2, c2, d1, d2] =>
    if y1.isDigit && y2.isDigit && y3.isDigit && y4.isDigit
        && c1 == '-' && c2 == '-'
        && m1.isDigit && m2.isDigit && d1.isDigit && d2.isDigit then
      let y := ((digitVal y1 * 10 + digitVal y2) * 10 + digitVal y3) * 10 + digitVal y4
      let m := digitVal m1 * 10 + digitVal m2
      let d := digitVal d1 * 10 + digitVal d2
      if 1 ≤ m && m ≤ 12 && 1 ≤ d && d ≤ daysInMonth y m then some (y, m, d) else none
    else none
  | _ => none

/-- The `%a` short weekday names, indexed from Sunday. -/
def weekdayNames : List String := ["Sun", "Mon", "Tue", "Wed", "Thu", "Fri", "Sat"]

/-- Day of the week (0 = Sunday) by Sakamoto's method; model of chrono's
weekday computation used by `d.format("%a")` (main.rs line 92). -/
def dayOfWeek (y m d : Nat) : Nat :=
  let offs : List Nat := [0, 3, 2, 5, 0, 3, 5, 1, 4, 6, 2, 4]
  let y2 := if m < 3 then y - 1 else y
  (y2 + y2 / 4 - y2 / 100 + y2 / 400 + offs.getD (m - 1) 0 + d) % 7

/-- Embedding of main.rs lines 91-93: parse the date string, format the
weekday as `%a`, and fall back to the placeholder `"???"` when parsing fails. -/
def day_name_of (date : String) : String :=
  match parseYMD date with
  | some (y, m, d) => weekdayNames.getD (dayOfWeek y m d) "???"
  | none => "???"

/-- The `current` object of the decoded JSON response (main.rs lines 25-29).
`temperature_2m` is an f64, modelled as a rational. -/
structure CurrentWeather where
  temperature_2m : ℚ
  weather_code : Nat
deriving DecidableEq

/-- The `daily` object of the decoded JSON response (main.rs lines 31-37).
serde imposes no relation between the four array lengths. -/
structure DailyWeather where
  time : List String
  weather_code : List Nat
  temperature_2m_max : List ℚ
  temperature_2m_min : List ℚ
deriving DecidableEq

/-- The decoded JSON response (main.rs lines 19-23). -/
structure OpenMeteoResponse where
  current : CurrentWeather
  daily : DailyWeather
deriving DecidableEq

/-- One forecast entry (main.rs lines 46-52). -/
structure ForecastDay where
  day_name : String
  high : ℚ
  low : ℚ
  condition : String
deriving DecidableEq

/-- The weather snapshot (main.rs lines 39-44). -/
structure WeatherData where
  current_temp : ℚ
  current_condition : String
  forecast : List ForecastDay
deriving DecidableEq

/-- Outcome of the HTTP GET plus JSON decode (main.rs lines 78-79): the
transport can fail, the decode can fail, or a typed response is produced. -/
inductive FetchOutcome where
  | netError
  | decodeError
  | ok (resp : OpenMeteoResponse)
deriving DecidableEq

/-- Result of running `fetch_weather` on one outcome: a normal return, or a
Rust panic (out-of-bounds index at main.rs lines 94-96). -/
inductive FetchResult where
  | panicked
  | result (r : Option WeatherData)
deriving DecidableEq

/-- Body of the closure at main.rs lines 88-98, building one `ForecastDay`
from array index `idx` and the date string at that index.  `none` models the
panic raised by `temperature_2m_max[idx]` / `temperature_2m_min[idx]` /
`weather_code[idx]` when `idx` is out of bounds. -/
def forecastEntry (d : DailyWeather) (idx : Nat) (date : String) : Option ForecastDay :=
  match d.temperature_2m_max[idx]?, d.temperature_2m_min[idx]?, d.weather_code[idx]? with
  | some hi, some lo, some wc =>
      some { day_name := day_name_of date, high := hi, low := lo,
             condition := weather_code_to_condition wc }
  | _, _, _ => none

/-- The iteration `.skip(1).take(7).enumerate().map(...).collect()` of
main.rs lines 81-99: `dates` is the remaining slice of date strings, `idx`
the daily-array index of its head; a panic anywhere aborts the whole map. -/
def buildForecastAux (d : DailyWeather) (dates : List String) (idx : Nat) :
    Option (List ForecastDay) :=
  match dates with
  | [] => some []
  | date :: rest =>
    match forecastEntry d idx date with
    | none => none
    | some fd => (buildForecastAux d rest (idx + 1)).map (fd :: ·)

/-- The forecast vector built by `fetch_weather`: iterate over the date
strings with index 0 skipped and at most 7 taken, starting at array index 1. -/
def buildForecast (d : DailyWeather) : Option (List ForecastDay) :=
  buildForecastAux d ((d.time.drop 1).take 7) 1

/-- Embedding of `fetch_weather` (main.rs lines 67-106) as a function of the
transport/decode outcome.  The two `.ok()?` early returns yield `None`; a
decoded response builds the forecast (possibly panicking) and wraps the
snapshot in `Some`. -/
def fetch_weather (o : FetchOutcome) : FetchResult :=
  match o with
  | .netError => .result none
  | .decodeError => .result none
  | .ok data =>
    match buildForecast data.daily with
    | none => .panicked
    | some forecast =>
      .result (some { current_temp := data.current.temperature_2m,
                      current_condition :=
                        weather_code_to_condition data.current.weather_code,
                      forecast := forecast })

/-- Adequacy of the daily array lengths: every index the forecast loop reads
(1 up to `min 7 (time.length - 1)`) is in bounds for the three value arrays.
Equivalently each array has length at least `min 8 time.length`. -/
def dailyOk (d : DailyWeather) : Prop :=
  min 8 d.time.length ≤ d.weather_code.length ∧
  min 8 d.time.length ≤ d.temperature_2m_max.length ∧
  min 8 d.time.length ≤ d.temperature_2m_min.length

instance (d : DailyWeather) : Decidable (dailyOk d) := by
  unfold dailyOk; infer_instance

/-- Embedding of main.rs line 127: the separator blink phase
`(now.timestamp_millis() / 500) % 2 == 0`, with Rust's truncating `i64`
division and remainder. -/
def show_colon (t : Int) : Bool := (t.tdiv 500).tmod 2 == 0

/-- The crossterm key codes the program distinguishes (main.rs line 134). -/
inductive KeyCode where
  | char (c : Char)
  | esc
  | enter
  | otherKey
deriving DecidableEq

/-- The crossterm events the program distinguishes (main.rs line 133). -/
inductive Event where
  | key (code : KeyCode)
  | otherEvent
deriving DecidableEq

/-- Embedding of main.rs lines 133-136: the loop breaks (with success value
`Ok(())`) exactly when a key event matches `KeyCode::Char('q') | KeyCode::Esc`. -/
def should_quit (e : Event) : Bool :=
  match e with
  | .key code =>
    match code with
    | .char c => c == 'q'
    | .esc => true
    | _ => false
  | _ => false

/-- The loop state carried across iterations (main.rs lines 121-122):
the current snapshot slot and the `Instant` of the last fetch, modelled as
seconds on a monotonic clock. -/
structure LoopState where
  weather : Option WeatherData
  last_weather_fetch : Nat
deriving DecidableEq

/-- Embedding of the refresh block (main.rs lines 141-146): when at least
1800 seconds have elapsed since the last fetch, invoke the weather client
once (its result is the `fetched` argument), keep the old snapshot if it
returned `None`, and reset the fetch instant to `now` either way.  Returns
the new state and the number of `fetch_weather` invocations made.  The fetch
is modelled as instantaneous, so the `Instant::now()` at line 145 is `now`. -/
def refresh_step (st : LoopState) (now : Nat) (fetched : Option WeatherData) :
    LoopState × Nat :=
  if 1800 ≤ now - st.last_weather_fetch then
    ({ weather := match fetched with
                  | some w => some w
                  | none => st.weather,
       last_weather_fetch := now }, 1)
  else (st, 0)

/-- Round half away from zero: model of `f64::round` applied to the
temperature values (main.rs lines 238, 263-264). -/
def rustRound (q : ℚ) : Int := if 0 ≤ q then (q + 1/2).floor else -((-q + 1/2).floor)

/-- A widget drawn into a region, with layout rectangles and colors
abstracted away; only the text content and centering are kept. -/
inductive Widget where
  | blockBorder
  | bigText (text : String) (centered : Bool)
  | paragraph (text : String) (centered : Bool)
deriving DecidableEq

/-- The forecast line format of main.rs lines 260-266:
day name, space, rounded low, `"c/"`, rounded high, `"c "`, condition. -/
def forecast_line (day : ForecastDay) : String :=
  day.day_name ++ " " ++ toString (rustRound day.low) ++ "c/"
    ++ toString (rustRound day.high) ++ "c " ++ day.condition

/-- Embedding of `render_weather` (main.rs lines 210-275) as the ordered list
of widgets drawn into the weather panel: the border block always; then either
the centered "Loading..." placeholder alone (no snapshot), or the big current
temperature, the condition paragraph, and the newline-joined forecast block. -/
def render_weather (weather : Option WeatherData) : List Widget :=
  Widget.blockBorder ::
    match weather with
    | none => [Widget.paragraph "Loading..." true]
    | some w =>
      [Widget.bigText (toString (rustRound w.current_temp) ++ "c") true,
       Widget.paragraph w.current_condition true,
       Widget.paragraph (String.intercalate "\n" (w.forecast.map forecast_line)) true]

/-- A decoded response whose `temperature_2m_max` array is one element short
of what the forecast loop reads: the loop visits array index 1 but that array
only has index 0. -/
def shortResp : OpenMeteoResponse :=
  { current := { temperature_2m := 20, weather_code := 0 },
    daily := { time := ["2024-01-01", "2024-01-02"],
               weather_code := [1, 1],
               temperature_2m_max := [25],
               temperature_2m_min := [15, 15] } }

/-- A well-formed decoded response with two daily entries of equal length. -/
def okResp : OpenMeteoResponse :=
  { current := { temperature_2m := 43/2, weather_code := 2 },
    daily := { time := ["2024-01-01", "2024-01-02"],
               weather_code := [1, 0],
               temperature_2m_max := [25, 26],
               temperature_2m_min := [15, 16] } }

/-- A well-formed decoded response with three equal-length daily arrays. -/
def threeDayResp : OpenMeteoResponse :=
  { current := { temperature_2m := 21, weather_code := 1 },
    daily := { time := ["2024-01-01", "2024-01-02", "2024-01-03"],
               weather_code := [1, 0, 61],
               temperature_2m_max := [25, 26, 27],
               temperature_2m_min := [15, 16, 17] } }

/-- A decoded response whose second daily `time` entry is not a valid
"YYYY-MM-DD" date string. -/
def badDateResp : OpenMeteoResponse :=
  { current := { temperature_2m := 20, weather_code := 3 },
    daily := { time := ["2024-01-01", "bad-date!", "2024-01-03"],
               weather_code := [1, 0, 2],
               temperature_2m_max := [25, 26, 27],
               temperature_2m_min := [15, 16, 17] } }

/-- A snapshot carrying a seven-day forecast. -/
def sampleWeek : WeatherData :=
  { current_temp := 43/2,
    current_condition := "Cloudy",
    forecast :=
      [{ day_name := "Mon", high := 25, low := 15, condition := "Clear" },
       { day_name := "Tue", high := 26, low := 16, condition := "Rain" },
       { day_name := "Wed", high := 27, low := 17, condition := "Snow" },
       { day_name := "Thu", high := 28, low := 18, condition := "Storm" },
       { day_name := "Fri", high := 29, low := 19, condition := "Fog" },
       { day_name := "Sat", high := 30, low := 20, condition := "Showers" },
       { day_name := "Sun", high := 31, low := 21, condition := "Cloudy" }] }

/-- Every run of `buildForecastAux` whose read indices are all in bounds for
the three daily value arrays succeeds and yields one entry per date. -/
theorem buildForecastAux_isSome (d : DailyWeather) :
    ∀ (dates : List String) (idx : Nat),
    (∀ j, j < dates.length → idx + j < d.weather_code.length ∧
          idx + j < d.temperature_2m_max.length ∧
          idx + j < d.temperature_2m_min.length) →
    ∃ L, buildForecastAux d dates idx = some L ∧ L.length = dates.length := by
  intro dates
  induction dates with
  | nil => intro idx h; exact ⟨[], rfl, rfl⟩
  | cons date rest ih =>
    intro idx h
    obtain ⟨hw, hx, hn⟩ := h 0 (by simp)
    simp only [Nat.add_zero] at hw hx hn
    have hentry : forecastEntry d idx date =
        some { day_name := day_name_of date,
               high := d.temperature_2m_max[idx],
               low := d.temperature_2m_min[idx],
               condition := weather_code_to_condition (d.weather_code[idx]) } := by
      simp [forecastEntry, List.getElem?_eq_getElem, hw, hx, hn]
    obtain ⟨L, hL, hlen⟩ := ih (idx + 1) (fun j hj => by
      obtain ⟨a, b, c⟩ := h (j + 1) (by simpa using Nat.succ_lt_succ hj)
      refine ⟨?_, ?_, ?_⟩ <;> omega)
    refine ⟨{ day_name := day_name_of date, high := d.temperature_2m_max[idx],
              low := d.temperature_2m_min[idx],
              condition := weather_code_to_condition (d.weather_code[idx]) } :: L, ?_, ?_⟩
    · simp [buildForecastAux, hentry, hL]
    · simp [hlen]

/-- On a successful run of `buildForecastAux`, the entry at position `j` is
exactly the forecast entry built from array index `idx + j` and the date at
position `j`. -/
theorem buildForecastAux_getElem (d : DailyWeather) :
    ∀ (dates : List String) (idx : Nat) (L : List ForecastDay),
    buildForecastAux d dates idx = some L →
    ∀ j date, dates[j]? = some date → L[j]? = forecastEntry d (idx + j) date := by
  intro dates
  induction dates with
  | nil => intro idx L h j date hj; simp at hj
  | cons d0 rest ih =>
    intro idx L h j date hj
    rw [buildForecastAux] at h
    cases he : forecastEntry d idx d0 with
    | none => rw [he] at h; simp at h
    | some fd =>
      rw [he] at h
      cases hr : buildForecastAux d rest (idx + 1) with
      | none => rw [hr] at h; simp at h
      | some L2 =>
        rw [hr] at h
        simp at h
        subst h
        cases j with
        | zero =>
          simp only [List.getElem?_cons_zero, Option.some_inj] at hj
          subst hj
          simpa using he.symm
        | succ k =>
          simp only [List.getElem?_cons_succ] at hj ⊢
          have := ih (idx + 1) L2 hr k date hj
          rw [this]
          congr 1
          omega

/-- When the daily arrays are adequate, the whole forecast build succeeds and
produces `min 7 (time.length - 1)` entries. -/
theorem buildForecast_isSome (d : DailyWeather) (h : dailyOk d) :
    ∃ L, buildForecast d = some L ∧ L.length = min 7 (d.time.length - 1) := by
  obtain ⟨hw, hx, hn⟩ := h
  have hlen : ((d.time.drop 1).take 7).length = min 7 (d.time.length - 1) := by
    simp [List.length_take, List.length_drop]
  obtain ⟨L, hL, hL2⟩ := buildForecastAux_isSome d ((d.time.drop 1).take 7) 1 (fun j hj => by
    rw [hlen] at hj
    refine ⟨?_, ?_, ?_⟩ <;> omega)
  exact ⟨L, hL, by rw [hL2, hlen]⟩

/-- The blink phase of a nonnegative timestamp, computed over `Nat`. -/
theorem show_colon_ofNat (n : Nat) :
    show_colon (n : Int) = ((n / 500) % 2 == 0) := by
  unfold show_colon
  rw [show (500 : Int) = ((500 : Nat) : Int) from rfl,
      show (2 : Int) = ((2 : Nat) : Int) from rfl,
      ← Int.ofNat_tdiv, ← Int.ofNat_tmod, Bool.eq_iff_iff]
  simp only [beq_iff_eq, Nat.cast_eq_zero]

/-- C1: for every weather code in the domain of `weather_code_to_condition`
(the `u8` values 0 to 255), the function returns exactly one of the 8 defined
labels according to the range table, exact at every boundary: 0 is Clear,
1 to 3 Cloudy, 45 to 48 Fog, 51 to 67 Rain, 71 to 77 Snow, 80 to 82 Showers,
95 to 99 Storm, and every other code (44, 49, 150, ...) is Unknown. -/
theorem condition_label_table : ∀ c : Fin 256,
    weather_code_to_condition c.val ∈
      (["Clear", "Cloudy", "Fog", "Rain", "Snow", "Showers", "Storm", "Unknown"] :
        List String) ∧
    (weather_code_to_condition c.val = "Clear" ↔ c.val = 0) ∧
    (weather_code_to_condition c.val = "Cloudy" ↔ 1 ≤ c.val ∧ c.val ≤ 3) ∧
    (weather_code_to_condition c.val = "Fog" ↔ 45 ≤ c.val ∧ c.val ≤ 48) ∧
    (weather_code_to_condition c.val = "Rain" ↔ 51 ≤ c.val ∧ c.val ≤ 67) ∧
    (weather_code_to_condition c.val = "Snow" ↔ 71 ≤ c.val ∧ c.val ≤ 77) ∧
    (weather_code_to_condition c.val = "Showers" ↔ 80 ≤ c.val ∧ c.val ≤ 82) ∧
    (weather_code_to_condition c.val = "Storm" ↔ 95 ≤ c.val ∧ c.val ≤ 99) ∧
    (weather_code_to_condition c.val = "Unknown" ↔
      ¬(c.val = 0 ∨ (1 ≤ c.val ∧ c.val ≤ 3) ∨ (45 ≤ c.val ∧ c.val ≤ 48) ∨
        (51 ≤ c.val ∧ c.val ≤ 67) ∨ (71 ≤ c.val ∧ c.val ≤ 77) ∨
        (80 ≤ c.val ∧ c.val ≤ 82) ∨ (95 ≤ c.val ∧ c.val ≤ 99))) := by
  set_option maxRecDepth 10000 in
  set_option maxHeartbeats 1000000 in
  decide

/-- C2 counterexample: the claim says `fetch_weather` never panics even on a
successfully decoded response with mismatched or short daily arrays, but on
`shortResp` (whose `temperature_2m_max` has only one element) the indexing at
main.rs line 94 goes out of bounds and the program panics. -/
theorem fetch_weather_short_arrays_panic :
    fetch_weather (FetchOutcome.ok shortResp) = FetchResult.panicked := by rfl

/-- C2 (amended): for every outcome that is a network error, a decode
failure, or a decoded response whose daily value arrays are long enough for
the indices the forecast loop reads (in particular any response with
equal-length daily arrays), `fetch_weather` returns a snapshot or the absence
value and does not panic.  Decoded responses with shorter arrays panic, as
the counterexample shows. -/
theorem fetch_weather_no_panic (o : FetchOutcome)
    (h : ∀ d, o = FetchOutcome.ok d → dailyOk d.daily) :
    ∃ r, fetch_weather o = FetchResult.result r := by
  cases o with
  | netError => exact ⟨none, rfl⟩
  | decodeError => exact ⟨none, rfl⟩
  | ok data =>
    obtain ⟨L, hL, h2⟩ := buildForecast_isSome data.daily (h data rfl)
    refine ⟨some { current_temp := data.current.temperature_2m,
                   current_condition := weather_code_to_condition data.current.weather_code,
                   forecast := L }, ?_⟩
    simp [fetch_weather, hL]

/-- C2 witness: the amended no-panic theorem applied to the concrete
well-formed response `okResp`. -/
theorem fetch_weather_no_panic_witness :
    ∃ r, fetch_weather (FetchOutcome.ok okResp) = FetchResult.result r :=
  fetch_weather_no_panic (FetchOutcome.ok okResp) (fun d hd => by cases hd; decide)

/-- C3: for every well-formed response whose four daily arrays all have
length 8, `fetch_weather` returns a snapshot whose forecast has exactly 7
entries, which are the input entries 1 through 7 in order (entry 0 skipped),
each taking its day label, high, low and condition from the same input
index. -/
theorem fetch_weather_eight_days
    (ct : ℚ) (cw : Nat) (t0 t1 t2 t3 t4 t5 t6 t7 : String)
    (w0 w1 w2 w3 w4 w5 w6 w7 : Nat)
    (h0 h1 h2 h3 h4 h5 h6 h7 l0 l1 l2 l3 l4 l5 l6 l7 : ℚ) :
    fetch_weather (FetchOutcome.ok
      { current := { temperature_2m := ct, weather_code := cw },
        daily := { time := [t0, t1, t2, t3, t4, t5, t6, t7],
                   weather_code := [w0, w1, w2, w3, w4, w5, w6, w7],
                   temperature_2m_max := [h0, h1, h2, h3, h4, h5, h6, h7],
                   temperature_2m_min := [l0, l1, l2, l3, l4, l5, l6, l7] } }) =
      FetchResult.result (some
        { current_temp := ct,
          current_condition := weather_code_to_condition cw,
          forecast :=
            [{ day_name := day_name_of t1, high := h1, low := l1,
               condition := weather_code_to_condition w1 },
             { day_name := day_name_of t2, high := h2, low := l2,
               condition := weather_code_to_condition w2 },
             { day_name := day_name_of t3, high := h3, low := l3,
               condition := weather_code_to_condition w3 },
             { day_name := day_name_of t4, high := h4, low := l4,
               condition := weather_code_to_condition w4 },
             { day_name := day_name_of t5, high := h5, low := l5,
               condition := weather_code_to_condition w5 },
             { day_name := day_name_of t6, high := h6, low := l6,
               condition := weather_code_to_condition w6 },
             { day_name := day_name_of t7, high := h7, low := l7,
               condition := weather_code_to_condition w7 }] }) := by rfl

/-- C4: in a loop iteration where the refresh is due (at least 1800 seconds
elapsed since the last fetch instant), the weather client is invoked exactly
once; a returned snapshot replaces the current one, absence retains the
previous snapshot unchanged, and the last fetch instant is reset to now in
both cases. -/
theorem refresh_step_due (st : LoopState) (now : Nat) (fetched : Option WeatherData)
    (h : 1800 ≤ now - st.last_weather_fetch) :
    (refresh_step st now fetched).2 = 1 ∧
    (refresh_step st now fetched).1.last_weather_fetch = now ∧
    (∀ w, fetched = some w → (refresh_step st now fetched).1.weather = some w) ∧
    (fetched = none → (refresh_step st now fetched).1.weather = st.weather) := by
  unfold refresh_step
  rw [if_pos h]
  refine ⟨rfl, rfl, ?_, ?_⟩
  · intro w hw; subst hw; rfl
  · intro hn; subst hn; rfl

/-- C4 witness: the refresh theorem at a concrete overdue state with a failed
fetch: the client runs once, the instant resets, the snapshot is retained. -/
theorem refresh_step_due_witness :
    1800 ≤ 2000 - (0 : Nat) ∧
    (refresh_step ⟨none, 0⟩ 2000 none).2 = 1 ∧
    (refresh_step ⟨none, 0⟩ 2000 none).1.last_weather_fetch = 2000 ∧
    (refresh_step ⟨none, 0⟩ 2000 none).1.weather = none := by
  have h := refresh_step_due ⟨none, 0⟩ 2000 none (by decide)
  exact ⟨by decide, h.1, h.2.1, h.2.2.2 rfl⟩

/-- C5 counterexample: the claim asserts `blink_on(t) = blink_on(t + 1000)`
for every integer millisecond timestamp, but with Rust's truncating `i64`
division the identity fails crossing zero: at t = -300 the separator is
shown, at t = 700 it is not. -/
theorem show_colon_not_periodic_on_negatives :
    show_colon (-300) = true ∧ show_colon (-300 + 1000) = false := by decide

/-- C5 (amended): for every nonnegative millisecond timestamp t, the blink
phase `(t / 500) % 2 == 0` satisfies `blink_on(t) = blink_on(t + 1000)`
(1000 ms periodicity), and is constant on each aligned 500 ms window: its
value at t equals its value at the window start `500 * (t / 500)`.  For
negative timestamps (clock readings before 1970) the periodicity identity
fails, as the counterexample shows. -/
theorem show_colon_blink_nonneg (t : Int) (ht : 0 ≤ t) :
    show_colon (t + 1000) = show_colon t ∧
    show_colon t = show_colon (500 * (t.tdiv 500)) := by
  obtain ⟨n, rfl⟩ := Int.eq_ofNat_of_zero_le ht
  constructor
  · have h1 : ((n : Int) + 1000) = ((n + 1000 : Nat) : Int) := by push_cast; ring
    rw [h1, show_colon_ofNat, show_colon_ofNat]
    congr 1
    omega
  · have h2 : (500 : Int) * (Int.tdiv (n : Int) 500) = ((500 * (n / 500) : Nat) : Int) := by
      rw [show (500 : Int) = ((500 : Nat) : Int) from rfl, ← Int.ofNat_tdiv]
      push_cast
      ring
    rw [h2, show_colon_ofNat, show_colon_ofNat]
    congr 1
    omega

/-- C5 witness: the amended blink theorem instantiated at t = 12345. -/
theorem show_colon_blink_nonneg_witness :
    (0 : Int) ≤ 12345 ∧
    (show_colon (12345 + 1000) = show_colon 12345 ∧
     show_colon 12345 = show_colon (500 * ((12345 : Int).tdiv 500))) :=
  ⟨by decide, show_colon_blink_nonneg 12345 (by decide)⟩

/-- C6: for every adequate response, if the daily `time` entry feeding
forecast position j is not a valid "YYYY-MM-DD" date string, the fetched
snapshot still exists with its full forecast (no error, no aborted parse of
the other entries) and the entry at position j carries the 3-character
placeholder day label "???". -/
theorem bad_date_gives_placeholder (resp : OpenMeteoResponse) (j : Nat) (s : String)
    (hok : dailyOk resp.daily)
    (hj : j < min 7 (resp.daily.time.length - 1))
    (hs : resp.daily.time[j+1]? = some s)
    (hbad : parseYMD s = none) :
    ∃ w, fetch_weather (FetchOutcome.ok resp) = FetchResult.result (some w) ∧
      w.forecast.length = min 7 (resp.daily.time.length - 1) ∧
      (w.forecast[j]?).map ForecastDay.day_name = some "???" := by
  obtain ⟨L, hL, hlen⟩ := buildForecast_isSome resp.daily hok
  have hdates : ((resp.daily.time.drop 1).take 7)[j]? = some s := by
    rw [List.getElem?_take, if_pos (show j < 7 by omega), List.getElem?_drop,
        Nat.add_comm 1 j]
    exact hs
  have hLj := buildForecastAux_getElem resp.daily _ 1 L hL j s hdates
  obtain ⟨hw, hx, hn⟩ := hok
  have hb1 : 1 + j < resp.daily.weather_code.length := by omega
  have hb2 : 1 + j < resp.daily.temperature_2m_max.length := by omega
  have hb3 : 1 + j < resp.daily.temperature_2m_min.length := by omega
  have hentry : forecastEntry resp.daily (1 + j) s =
      some { day_name := "???",
             high := resp.daily.temperature_2m_max[1 + j],
             low := resp.daily.temperature_2m_min[1 + j],
             condition := weather_code_to_condition (resp.daily.weather_code[1 + j]) } := by
    simp [forecastEntry, List.getElem?_eq_getElem, hb1, hb2, hb3, day_name_of, hbad]
  refine ⟨{ current_temp := resp.current.temperature_2m,
            current_condition := weather_code_to_condition resp.current.weather_code,
            forecast := L }, ?_, ?_, ?_⟩
  · simp [fetch_weather, hL]
  · exact hlen
  · show (L[j]?).map ForecastDay.day_name = some "???"
    rw [hLj, hentry]
    rfl

/-- C6 witness: the placeholder theorem applied to `badDateResp`, whose
second time entry "bad-date!" fails date parsing. -/
theorem bad_date_gives_placeholder_witness :
    ∃ w, fetch_weather (FetchOutcome.ok badDateResp) = FetchResult.result (some w) ∧
      w.forecast.length = min 7 (badDateResp.daily.time.length - 1) ∧
      (w.forecast[0]?).map ForecastDay.day_name = some "???" :=
  bad_date_gives_placeholder badDateResp 0 "bad-date!"
    (by decide) (by decide) (by decide) (by decide)

/-- C7: a loop iteration terminates the loop (breaking with the success
value) exactly when the received event is a key event for the lowercase
character q or for the escape key; any other event, including uppercase Q,
leaves the loop running. -/
theorem quit_iff (e : Event) :
    should_quit e = true ↔
      e = Event.key (KeyCode.char 'q') ∨ e = Event.key KeyCode.esc := by
  cases e with
  | otherEvent => simp [should_quit]
  | key code =>
    cases code with
    | char c => simp [should_quit]
    | esc => simp [should_quit]
    | enter => simp [should_quit]
    | otherKey => simp [should_quit]

/-- C8: with no snapshot available, the weather region draws its border and
then exactly one widget: the centered "Loading..." paragraph — no
temperature, condition, or forecast content. -/
theorem render_weather_loading :
    render_weather none = [Widget.blockBorder, Widget.paragraph "Loading..." true] := by rfl

/-- C9: for every snapshot with a 7-entry forecast, the rendered forecast
text is the newline-join of one line per forecast day in order, 7 lines in
total, each line being the day label, a space, the rounded low, "c/", the
rounded high, "c ", and the condition. -/
theorem forecast_rendering (w : WeatherData) (h : w.forecast.length = 7) :
    (w.forecast.map forecast_line).length = 7 ∧
    (∀ d ∈ w.forecast, forecast_line d =
        d.day_name ++ " " ++ toString (rustRound d.low) ++ "c/" ++
        toString (rustRound d.high) ++ "c " ++ d.condition) ∧
    render_weather (some w) = [Widget.blockBorder,
      Widget.bigText (toString (rustRound w.current_temp) ++ "c") true,
      Widget.paragraph w.current_condition true,
      Widget.paragraph (String.intercalate "\n" (w.forecast.map forecast_line)) true] := by
  refine ⟨by simp [h], fun d _ => rfl, rfl⟩

/-- C9 witness: the rendering theorem applied to the concrete week-long
snapshot `sampleWeek`. -/
theorem forecast_rendering_witness :
    sampleWeek.forecast.length = 7 ∧
    (sampleWeek.forecast.map forecast_line).length = 7 :=
  ⟨rfl, (forecast_rendering sampleWeek rfl).1⟩

/-- C10: every decoded response whose four daily arrays have equal length at
least 1 makes `fetch_weather` succeed with a snapshot whose forecast has
exactly `min 7 (n - 1)` entries; shorter-than-8 responses are not decode
failures. -/
theorem fetch_weather_forecast_length (resp : OpenMeteoResponse)
    (hw : resp.daily.weather_code.length = resp.daily.time.length)
    (hx : resp.daily.temperature_2m_max.length = resp.daily.time.length)
    (hn : resp.daily.temperature_2m_min.length = resp.daily.time.length)
    (h1 : 1 ≤ resp.daily.time.length) :
    ∃ w, fetch_weather (FetchOutcome.ok resp) = FetchResult.result (some w) ∧
      w.forecast.length = min 7 (resp.daily.time.length - 1) := by
  obtain ⟨L, hL, hlen⟩ := buildForecast_isSome resp.daily ⟨by omega, by omega, by omega⟩
  refine ⟨{ current_temp := resp.current.temperature_2m,
            current_condition := weather_code_to_condition resp.current.weather_code,
            forecast := L }, ?_, ?_⟩
  · simp [fetch_weather, hL]
  · exact hlen

/-- C10 witness: the forecast-length theorem applied to `threeDayResp`,
whose daily arrays all have length 3, so the forecast has 2 entries. -/
theorem fetch_weather_forecast_length_witness :
    ∃ w, fetch_weather (FetchOutcome.ok threeDayResp) = FetchResult.result (some w) ∧
      w.forecast.length = min 7 (threeDayResp.daily.time.length - 1) :=
  fetch_weather_forecast_length threeDayResp rfl rfl rfl (by decide)

end PiDisplay
